import Mathlib

/-!
# Verification of drf-rior's serializer resolution layer

Shallow embedding of the drf-rior repository (files `drf_rior/utils.py`,
`drf_rior/generics.py`, `drf_rior/schema.py`) and proofs about the claims of
its specification.

Modelling conventions:
* A serializer class (`Type[serializers.Serializer]`) is an opaque reference
  `SerializerClass`.
* A Python value that is "a serializer class or `None`" is
  `Option SerializerClass`, with `none` standing for Python `None`.
* `dict.get` is total and returns `None` for a missing key; it is embedded by
  `dictGet` over an association list.
* `getattr(obj, name, default)` returns the attribute when the *attribute
  exists* (even when its value is `None`) and the default only when the name
  is not an attribute of the object.  This is embedded by `getattrGroup`,
  built from `getattrGroupStrict` which mirrors one-argument `getattr` (and
  its `AttributeError` on missing names).
-/

/-- An opaque reference to a serializer class (`Type[serializers.Serializer]`
from `rest_framework`). -/
structure SerializerClass where
  id : Nat
deriving DecidableEq, Repr

/-- Embedding of `drf_rior.utils.SerializerActionViewGroup`: a dataclass with
a required `default` slot and four optional slots defaulting to `None`
(`OptionalSerializerType = Optional[Type[serializers.Serializer]]`). -/
structure SerializerActionViewGroup where
  default : SerializerClass
  request : Option SerializerClass := none
  input : Option SerializerClass := none
  output : Option SerializerClass := none
  response : Option SerializerClass := none
deriving DecidableEq, Repr

/-- The Python exceptions relevant to the per-request resolution path. -/
inductive PyExn where
  | attributeError
  | keyError
deriving DecidableEq, Repr

/-- One-argument `getattr(group, name)` on a `SerializerActionViewGroup`
instance.  The five dataclass fields are the attributes that exist; every
attribute access returns the stored value (`None` included); any other name
raises `AttributeError`. -/
def getattrGroupStrict (g : SerializerActionViewGroup) (name : String) :
    Except PyExn (Option SerializerClass) :=
  if name = "default" then .ok (some g.default)
  else if name = "request" then .ok g.request
  else if name = "input" then .ok g.input
  else if name = "output" then .ok g.output
  else if name = "response" then .ok g.response
  else .error .attributeError

/-- Three-argument `getattr(group, name, fallback)`: the fallback is used
exactly when one-argument `getattr` would raise `AttributeError`. -/
def getattrGroup (g : SerializerActionViewGroup) (name : String)
    (fallback : Option SerializerClass) : Option SerializerClass :=
  match getattrGroupStrict g name with
  | .ok v => v
  | .error _ => fallback

/-- Embedding of `dict.get(key)` on a `dict[str, SerializerActionViewGroup]`, embedded over
an association list: first binding wins, `None` when the key is absent.  It is
total (never raises). -/
def dictGet (m : List (String × SerializerActionViewGroup)) (k : String) :
    Option SerializerActionViewGroup :=
  (m.find? (fun p => p.fst = k)).map Prod.snd

/-- What a Python class may hold under the name `action_serializer_group`
before the construction-time checks of `RIORGenericViewSet.__init__` run:
the attribute can be missing entirely, set to `None`, set to a non-`dict`
value, or set to an actual `dict` mapping action names to groups. -/
inductive ASGAttr where
  | absent
  | pynone
  | notADict
  | dict (m : List (String × SerializerActionViewGroup))
deriving DecidableEq, Repr

/-- Embedding of the check `getattr(self, "action_serializer_group", None) is None` from
`RIORGenericViewSet.__init__`: true when the attribute is missing or set to
`None`. -/
def ASGAttr.isNoneOrAbsent : ASGAttr → Bool
  | .absent => true
  | .pynone => true
  | _ => false

/-- Embedding of `isinstance(self.action_serializer_group, dict)`. -/
def ASGAttr.isDict : ASGAttr → Bool
  | .dict _ => true
  | _ => false

/-- Embedding of `drf_rior.exceptions.ClassDefinitionError`: the structured
configuration error.  The call-site annotation appended by `__init__` is
request-environment introspection and is kept abstract as part of the
message. -/
structure ClassDefinitionError where
  message : String
deriving DecidableEq, Repr

/-- A successfully constructed `RIORGenericViewSet`: after `__init__` the
`action_serializer_group` attribute is a `dict` and `serializer_class` is
truthy (a class object, hence non-`None`). -/
structure RIORGenericViewSet where
  action_serializer_group : List (String × SerializerActionViewGroup)
  serializer_class : SerializerClass
deriving DecidableEq, Repr

/-- Embedding of `RIORGenericViewSet.__init__` (file `drf_rior/generics.py`).
The three checks run in source order and each failure raises a
`ClassDefinitionError` synchronously, before any request can be handled;
resolution functions below are only defined on the successfully constructed
view this returns.  `serializer_class` is modelled as `Option SerializerClass`
because a class object is always truthy and `None` is the falsy case of
`if not self.serializer_class`. -/
def viewInit (asg : ASGAttr) (serializer_class : Option SerializerClass) :
    Except ClassDefinitionError RIORGenericViewSet :=
  if asg.isNoneOrAbsent then
    .error ⟨"action_serializer_group must be declared."⟩
  else
    match asg with
    | .dict m =>
      match serializer_class with
      | none => .error ⟨"serializer_class must be declared."⟩
      | some sc => .ok ⟨m, sc⟩
    | _ => .error ⟨"action_serializer_group must be a dict."⟩

namespace RIORGenericViewSet

/-- Embedding of `RIORGenericViewSet.get_group`: `self.action_serializer_group.get(self.action)`.
The current action of the view is passed explicitly. -/
def get_group (v : RIORGenericViewSet) (action : String) :
    Option SerializerActionViewGroup :=
  dictGet v.action_serializer_group action

/-- Embedding of `RIORGenericViewSet._get_serializer_class(serializer_type)`:

    if not (group := self.get_group()):
        return self.serializer_class
    return getattr(group, serializer_type, group.default)

A `SerializerActionViewGroup` dataclass instance is always truthy, so
`not group` holds exactly when `get_group` returned `None`. -/
def resolve (v : RIORGenericViewSet) (action serializer_type : String) :
    Option SerializerClass :=
  match v.get_group action with
  | none => some v.serializer_class
  | some group => getattrGroup group serializer_type (some group.default)

/-- Variant of `_get_serializer_class` with the Python exception behaviour made explicit:
`dict.get` is total and the three-argument `getattr` catches the
`AttributeError` of the strict lookup, so every branch returns normally. -/
def resolveChecked (v : RIORGenericViewSet) (action serializer_type : String) :
    Except PyExn (Option SerializerClass) :=
  match v.get_group action with
  | none => .ok (some v.serializer_class)
  | some group =>
    match getattrGroupStrict group serializer_type with
    | .ok val => .ok val
    | .error _ => .ok (some group.default)

/-- Embedding of `RIORGenericViewSet.get_serializer_class`. -/
def get_serializer_class (v : RIORGenericViewSet) (action : String) :
    Option SerializerClass :=
  v.resolve action "default"

/-- Embedding of `RIORGenericViewSet.get_request_serializer_class`. -/
def get_request_serializer_class (v : RIORGenericViewSet) (action : String) :
    Option SerializerClass :=
  v.resolve action "request"

/-- Embedding of `RIORGenericViewSet.get_input_serializer_class`. -/
def get_input_serializer_class (v : RIORGenericViewSet) (action : String) :
    Option SerializerClass :=
  v.resolve action "input"

/-- Embedding of `RIORGenericViewSet.get_output_serializer_class`. -/
def get_output_serializer_class (v : RIORGenericViewSet) (action : String) :
    Option SerializerClass :=
  v.resolve action "output"

/-- Embedding of `RIORGenericViewSet.get_response_serializer_class`. -/
def get_response_serializer_class (v : RIORGenericViewSet) (action : String) :
    Option SerializerClass :=
  v.resolve action "response"

end RIORGenericViewSet

/-- A framework `Request` object, abstracted to an opaque payload. -/
structure Request where
  payload : String
deriving DecidableEq, Repr

/-- A framework `Response` object: HTTP status code plus an abstract body. -/
structure Response where
  status_code : Nat
  body : String
deriving DecidableEq, Repr

/-- The two overridable lifecycle hooks of `RIORGenericViewSet`.  A consumer
subclass may replace either method; a view that overrides neither carries
`defaultHooks`. -/
structure ViewHooks where
  inputRequestPre : Request → Request
  outputResponsePost : Request → Response → Response

/-- Embedding of `RIORGenericViewSet._input_request_pre_processor`: the default (meant to
be overridden) returns the request unchanged. -/
def input_request_pre_processor (request : Request) : Request :=
  request

/-- Embedding of `RIORGenericViewSet._output_response_post_processor`: the default (meant
to be overridden) returns the response unchanged. -/
def output_response_post_processor (request : Request) (response : Response) :
    Response :=
  response

/-- The hooks of a view that overrides neither extension point. -/
def defaultHooks : ViewHooks :=
  { inputRequestPre := input_request_pre_processor
    outputResponsePost := output_response_post_processor }

/-- Embedding of `RIORGenericViewSet.initialize_request`: the framework's own
`super().initialize_request(...)` is an external collaborator passed in as
`superInit`; its result is fed to the pre-processor hook. -/
def initialize_request (h : ViewHooks) (superInit : Request → Request)
    (request : Request) : Request :=
  h.inputRequestPre (superInit request)

/-- Embedding of `RIORGenericViewSet.finalize_response`: the framework's own
`super().finalize_response(...)` is an external collaborator passed in as
`superFinalize`; its result is fed to the post-processor hook.  The source
applies the hook unconditionally — there is no check on the response's
status code. -/
def finalize_response (h : ViewHooks) (superFinalize : Request → Response → Response)
    (request : Request) (response : Response) : Response :=
  h.outputResponsePost request (superFinalize request response)

/-- The view a `RequestResponseAutoSchema` instance is attached to
(`self.view`): either an instance of the extended view type (a constructed
`RIORGenericViewSet` together with its current action) or any other view, for
which the base generator's `self._get_serializer()` yields some generic
serializer. -/
inductive SchemaView where
  | rior (v : RIORGenericViewSet) (action : String)
  | base (generic : Option SerializerClass)
deriving DecidableEq, Repr

namespace RequestResponseAutoSchema

/-- Embedding of `RequestResponseAutoSchema.get_request_serializer` (file
`drf_rior/schema.py`).  The `print` calls in the source are side effects with
no bearing on the returned value and are not modelled.  The view's
`get_request_serializer()` instantiates the class returned by
`get_request_serializer_class()` with the serializer context; the instance is
identified with its class here. -/
def get_request_serializer : SchemaView → Option SerializerClass
  | .rior v action => v.get_request_serializer_class action
  | .base generic => generic

/-- Embedding of `RequestResponseAutoSchema.get_response_serializers`. -/
def get_response_serializers : SchemaView → Option SerializerClass
  | .rior v action => v.get_response_serializer_class action
  | .base generic => generic

end RequestResponseAutoSchema

/-! ## Concrete fixtures

Serializer classes `A`, `B`, `S` and small view configurations used to
evaluate the embedding on the spec's own end-to-end example
`{"create": Config(default=A, input=B)}` with class-level fallback `S`. -/

/-- Concrete serializer class `A` of the spec's end-to-end example. -/
def A : SerializerClass := ⟨0⟩

/-- Concrete serializer class `B` of the spec's end-to-end example. -/
def B : SerializerClass := ⟨1⟩

/-- Concrete class-level fallback serializer class (`serializer_class`). -/
def S : SerializerClass := ⟨2⟩

/-- The group `Config(default=A)`: only `default` set. -/
def groupOnlyDefault : SerializerActionViewGroup := { default := A }

/-- The group `Config(default=A, input=B)` of the spec's end-to-end example. -/
def groupDefaultInput : SerializerActionViewGroup := { default := A, input := some B }

/-- A view whose mapping is `{"create": Config(default=A)}` with fallback `S`. -/
def viewOnlyDefault : RIORGenericViewSet :=
  ⟨[("create", groupOnlyDefault)], S⟩

/-- The spec's end-to-end view: mapping `{"create": Config(default=A, input=B)}`
with class-level fallback `S`. -/
def viewEndToEnd : RIORGenericViewSet :=
  ⟨[("create", groupDefaultInput)], S⟩

/-! ## Claims -/

/-- C1 (code evaluation at the failing input): for the view configured with
`{"create": Config(default=A)}`, the action `"create"` is present in the
mapping and its `request` slot is unset (`None`), yet resolving the
`"request"` role returns `None` — not the record's `default` (`A`) as the
claim states.  The cause: `getattr(group, serializer_type, group.default)`
only uses its third argument for *missing* attributes, and the dataclass
attribute `request` exists with value `None`. -/
theorem c1_code_eval :
    viewOnlyDefault.get_group "create" = some groupOnlyDefault ∧
    groupOnlyDefault.request = none ∧
    viewOnlyDefault.get_request_serializer_class "create" = none := by
  decide

/-- C2 (code evaluation at the failing input): the resolution result is not
"never null": for the end-to-end view `{"create": Config(default=A, input=B)}`
with class-level fallback `S`, resolving the `"response"` role for action
`"create"` returns `None` — the fallback chain does not terminate in a
non-null reference because the per-action-default tier is never reached for
an existing attribute set to `None`. -/
theorem c2_code_eval :
    viewEndToEnd.get_group "create" = some groupDefaultInput ∧
    viewEndToEnd.get_response_serializer_class "create" = none := by
  decide

/-- C3: view construction raises the configuration error if and only if the
per-action mapping attribute is missing, the per-action mapping is not a
`dict`, or the class-level fallback serializer reference is unset (falsy,
i.e. `None`); the error is a value of `viewInit`, raised synchronously at
construction — the resolution functions are only defined on the view a
successful `viewInit` returns. -/
theorem c3_construction_error_iff :
    ∀ (asg : ASGAttr) (sc : Option SerializerClass),
      (∃ e, viewInit asg sc = .error e) ↔
        (asg = .absent ∨ asg.isDict = false ∨ sc = none) := by
  intro asg sc
  cases asg <;> cases sc <;>
    simp [viewInit, ASGAttr.isNoneOrAbsent, ASGAttr.isDict]

/-- C4: for every constructed view and every action absent from the
per-action mapping, each of the five roles (default, request, input, output,
response) resolves to the class-level fallback `serializer_class`. -/
theorem c4_absent_action_fallback (v : RIORGenericViewSet) (action : String)
    (h : v.get_group action = none) :
    v.get_serializer_class action = some v.serializer_class ∧
    v.get_request_serializer_class action = some v.serializer_class ∧
    v.get_input_serializer_class action = some v.serializer_class ∧
    v.get_output_serializer_class action = some v.serializer_class ∧
    v.get_response_serializer_class action = some v.serializer_class := by
  simp [RIORGenericViewSet.get_serializer_class,
    RIORGenericViewSet.get_request_serializer_class,
    RIORGenericViewSet.get_input_serializer_class,
    RIORGenericViewSet.get_output_serializer_class,
    RIORGenericViewSet.get_response_serializer_class,
    RIORGenericViewSet.resolve, h]

/-- Witness for C4: the end-to-end view has no mapping entry for `"list"`,
and all five roles resolve to the class-level fallback there. -/
theorem c4_witness :
    viewEndToEnd.get_group "list" = none ∧
    (viewEndToEnd.get_serializer_class "list" = some viewEndToEnd.serializer_class ∧
     viewEndToEnd.get_request_serializer_class "list" = some viewEndToEnd.serializer_class ∧
     viewEndToEnd.get_input_serializer_class "list" = some viewEndToEnd.serializer_class ∧
     viewEndToEnd.get_output_serializer_class "list" = some viewEndToEnd.serializer_class ∧
     viewEndToEnd.get_response_serializer_class "list" = some viewEndToEnd.serializer_class) :=
  ⟨by decide, c4_absent_action_fallback viewEndToEnd "list" (by decide)⟩

/-- C5 (code evaluation at the failing input): with mapping
`{"create": Config(default=A, input=B)}`, resolving `"input"` for `"create"`
does return `B`, but resolving `"output"` for `"create"` returns `None`
instead of the record's default `A` that the claim requires: the `output`
attribute exists with value `None`, so the `getattr` fallback never fires. -/
theorem c5_code_eval :
    viewEndToEnd.get_input_serializer_class "create" = some B ∧
    viewEndToEnd.get_output_serializer_class "create" = none := by
  decide

/-- Concrete request used in the response-finalization counterexample. -/
def reqX : Request := ⟨"incoming"⟩

/-- A response carrying the "204 No Content" status. -/
def resp204 : Response := ⟨204, "orig"⟩

/-- Hooks of a consumer view that overrides the response post-processor with
one that visibly rewrites the body. -/
def markHooks : ViewHooks :=
  { inputRequestPre := fun r => r
    outputResponsePost := fun _ r => { r with body := "post-processed" } }

/-- Counterexample for C6: `finalize_response` applies the post-processing
step even to a response carrying the "no content" (204) status — with the
framework finalizer as identity, the overridden post-processor still rewrites
the 204 response, so the "except those carrying a no-content status"
exclusion in the claim does not exist in the code (which applies the hook
unconditionally). -/
theorem c6_counterexample :
    resp204.status_code = 204 ∧
    finalize_response markHooks (fun _ r => r) reqX resp204 ≠ resp204 := by
  decide

/-- C6 as amended: during outbound response finalization the view applies the
output/response post-processing step to *every* response regardless of its
status (no-content included), and the default (non-overridden) pre-processor
and post-processor are pass-through, returning their request/response
argument unchanged. -/
theorem c6_amended_thm :
    (∀ (h : ViewHooks) (sf : Request → Response → Response)
        (req : Request) (resp : Response),
        finalize_response h sf req resp = h.outputResponsePost req (sf req resp)) ∧
    (∀ (h : ViewHooks) (si : Request → Request) (req : Request),
        initialize_request h si req = h.inputRequestPre (si req)) ∧
    (∀ req : Request, input_request_pre_processor req = req) ∧
    (∀ (req : Request) (resp : Response),
        output_response_post_processor req resp = resp) :=
  ⟨fun _ _ _ _ => rfl, fun _ _ _ => rfl, fun _ => rfl, fun _ _ => rfl⟩

/-- C7: the schema generator's request-shape and response-shape queries
dispatch on the view's type: for an instance of the extended view type they
return that view's role-specific request (respectively response) serializer,
and for any other view they return the base generator's single generic
serializer. -/
theorem c7_schema_dispatch :
    (∀ (v : RIORGenericViewSet) (action : String),
        RequestResponseAutoSchema.get_request_serializer (.rior v action) =
          v.get_request_serializer_class action ∧
        RequestResponseAutoSchema.get_response_serializers (.rior v action) =
          v.get_response_serializer_class action) ∧
    (∀ generic : Option SerializerClass,
        RequestResponseAutoSchema.get_request_serializer (.base generic) = generic ∧
        RequestResponseAutoSchema.get_response_serializers (.base generic) = generic) :=
  ⟨fun _ _ => ⟨rfl, rfl⟩, fun _ => ⟨rfl, rfl⟩⟩

/-- C8: the per-request resolution path never raises: the exception-explicit
embedding of `_get_serializer_class` returns `.ok` of the plain resolution
result on every constructed view, action and role — `dict.get` is total for
an absent action and the three-argument `getattr` absorbs the
`AttributeError` for an absent attribute, so absence only moves resolution to
the next fallback tier. -/
theorem c8_resolution_total (v : RIORGenericViewSet)
    (action serializer_type : String) :
    v.resolveChecked action serializer_type =
      .ok (v.resolve action serializer_type) := by
  cases hG : v.get_group action with
  | none =>
    simp [RIORGenericViewSet.resolveChecked, RIORGenericViewSet.resolve, hG]
  | some g =>
    cases hS : getattrGroupStrict g serializer_type with
    | ok val =>
      simp [RIORGenericViewSet.resolveChecked, RIORGenericViewSet.resolve,
        getattrGroup, hG, hS]
    | error e =>
      simp [RIORGenericViewSet.resolveChecked, RIORGenericViewSet.resolve,
        getattrGroup, hG, hS]

/-- C9: for a constructed view and an action present in the mapping, calling
the resolution function with a role name that is not one of the five
dataclass attributes returns the record's `default` shape (the `getattr`
fallback fires exactly there, where one-argument `getattr` would raise
`AttributeError`), while for each of the five existing attribute names the
stored slot value is returned verbatim — the fallback never fires for an
existing attribute. -/
theorem c9_unknown_role_defaults (v : RIORGenericViewSet) (action : String)
    (g : SerializerActionViewGroup) (hg : v.get_group action = some g)
    (t : String)
    (ht : t ≠ "default" ∧ t ≠ "request" ∧ t ≠ "input" ∧ t ≠ "output" ∧
          t ≠ "response") :
    (v.resolve action t = some g.default ∧
     getattrGroupStrict g t = .error .attributeError) ∧
    (v.resolve action "default" = some g.default ∧
     v.resolve action "request" = g.request ∧
     v.resolve action "input" = g.input ∧
     v.resolve action "output" = g.output ∧
     v.resolve action "response" = g.response) := by
  obtain ⟨h1, h2, h3, h4, h5⟩ := ht
  simp [RIORGenericViewSet.resolve, hg, getattrGroup, getattrGroupStrict,
    h1, h2, h3, h4, h5]

/-- Witness for C9: on the view `{"create": Config(default=A)}`, resolving
the non-attribute role name `"bogus"` for action `"create"` yields the
record's default `A`. -/
theorem c9_witness :
    viewOnlyDefault.get_group "create" = some groupOnlyDefault ∧
    viewOnlyDefault.resolve "create" "bogus" = some groupOnlyDefault.default :=
  ⟨by decide,
   ((c9_unknown_role_defaults viewOnlyDefault "create" groupOnlyDefault
      (by decide) "bogus" (by decide)).1).1⟩
